import Mathlib

/-!
Shallow embedding of the Trade-Book repository's quote-acquisition pipeline
(`universal-stock-scraper.js`) and position-aggregation engine
(`src/utils/TradeManager.js`), with theorems settling the specification
claims about them.

Modelling conventions:
* JavaScript numbers are modelled as rationals (`ℚ`).  Division by zero in
  `ℚ` yields `0` where JavaScript would yield `NaN`/`Infinity`; no settled
  claim depends on that corner.
* `Math.random()` draws are passed in explicitly as parameters in `[0, 1)`.
* Asynchronous network calls are modelled by their outcomes:
  an adapter invocation yields `Except String Quote` (error message or raw
  quote record).
-/

namespace TradeBook

/-- Canonical quote record, the field set produced by every source adapter and
by `generateMockData` in `universal-stock-scraper.js`. -/
structure Quote where
  symbol : String
  price : ℚ
  change : ℚ
  changePercent : ℚ
  volume : ℚ
  high : ℚ
  low : ℚ
  openPrice : ℚ
  prevClose : ℚ
  currency : String
  source : String
  isRealData : Bool
deriving Repr, DecidableEq

/-- JavaScript `.toUpperCase()`, modelled on the character list (so that it
evaluates by kernel reduction; `String.toUpper` maps `Char.toUpper` over the
same characters). -/
def jsToUpper (s : String) : String := String.mk (s.data.map Char.toUpper)

/-- JavaScript `parseFloat(x.toFixed(2))`: round to two decimal places. -/
def jsToFixed2 (q : ℚ) : ℚ := (round (q * 100) : ℚ) / 100

/-- JavaScript `parseInt(x) || 0` on a number: truncate toward zero
(`0` stays `0`, so the `|| 0` guard is the identity here). -/
def jsParseIntOr0 (q : ℚ) : ℚ :=
  if 0 ≤ q then (⌊q⌋ : ℚ) else (⌈q⌉ : ℚ)

/-- JavaScript `a || b` on numbers: `b` when `a` is falsy (`0`), else `a`. -/
def jsOr (a b : ℚ) : ℚ := if a = 0 then b else a

/-- `UniversalStockScraper.normalizeData(data, symbol)`: spread the raw record,
overwrite `symbol` with the canonicalized symbol, round `price`, `change` and
`changePercent` to two decimals, truncate `volume`.  All other fields
(including `prevClose`) pass through unchanged. -/
def normalizeData (data : Quote) (symbol : String) : Quote :=
  { data with
    symbol := jsToUpper symbol
    price := jsToFixed2 data.price
    change := jsToFixed2 data.change
    changePercent := jsToFixed2 data.changePercent
    volume := jsParseIntOr0 data.volume }

/-- The `priceInfo` object of an NSE India quote response, as read by
`fetchFromNSEWebsite`. -/
structure NSEPriceInfo where
  lastPrice : ℚ
  change : ℚ
  pChange : ℚ
  totalTradedVolume : ℚ
  intraDayHighLow : Option (ℚ × ℚ)
  openQuote : ℚ
  previousClose : ℚ
deriving Repr

/-- The quote record built by `fetchFromNSEWebsite` from a `priceInfo`
payload: `price := lastPrice`, `change` and `changePercent` (`pChange`) are
taken verbatim from the provider, `high`/`low` fall back to `lastPrice` when
`intraDayHighLow` is missing or falsy. -/
def parseNSEResponse (symbol : String) (d : NSEPriceInfo) : Quote :=
  { symbol := jsToUpper symbol
    price := d.lastPrice
    change := d.change
    changePercent := d.pChange
    volume := d.totalTradedVolume
    high := match d.intraDayHighLow with
      | some hl => jsOr hl.1 d.lastPrice
      | none => d.lastPrice
    low := match d.intraDayHighLow with
      | some hl => jsOr hl.2 d.lastPrice
      | none => d.lastPrice
    openPrice := d.openQuote
    prevClose := d.previousClose
    currency := "INR"
    source := "nse_india"
    isRealData := true }

/-- The static base-price table of `generateMockData`, with the
`|| 500` default for unknown symbols (keys are matched on the
canonicalized symbol). -/
def basePrices (symbol : String) : ℚ :=
  if symbol = "JIOFIN" then 280
  else if symbol = "JIOFINANCIAL" then 280
  else if symbol = "RELIANCE" then 2800
  else if symbol = "TCS" then 3500
  else if symbol = "INFY" then 1400
  else if symbol = "HDFCBANK" then 1600
  else if symbol = "ICICIBANK" then 900
  else if symbol = "BAJFINANCE" then 6500
  else if symbol = "BHARTIARTL" then 800
  else if symbol = "ITC" then 450
  else 500

/-- The six `Math.random()` draws made by one call to `generateMockData`,
in evaluation order; each is expected in `[0, 1)`. -/
structure MockDraws where
  rVar : ℚ
  rChange : ℚ
  rVol : ℚ
  rHigh : ℚ
  rLow : ℚ
  rOpen : ℚ
deriving Repr

/-- `UniversalStockScraper.generateMockData(symbol)` with the random draws
made explicit: base price from the static table, `±5%` variation on price,
`±2.5%` of base as absolute change, `changePercent = (change / price) * 100`,
`high = price * (1 + rand * 0.05)`, `low = price * (1 - rand * 0.05)`,
`open = price * (1 + (rand - 0.5) * 0.02)`, `prevClose = price - change`,
`source = "MOCK_DATA"`, `isRealData = false`. -/
def generateMockData (symbol : String) (d : MockDraws) : Quote :=
  let basePrice := basePrices (jsToUpper symbol)
  let randomVariation := (d.rVar - 1/2) * (1/10)
  let price := basePrice * (1 + randomVariation)
  let change := (d.rChange - 1/2) * basePrice * (1/20)
  let changePercent := (change / price) * 100
  { symbol := jsToUpper symbol
    price := price
    change := change
    changePercent := changePercent
    volume := (⌊d.rVol * 1000000⌋ : ℚ) + 100000
    high := price * (1 + d.rHigh * (1/20))
    low := price * (1 - d.rLow * (1/20))
    openPrice := price * (1 + (d.rOpen - 1/2) * (1/50))
    prevClose := price - change
    currency := "INR"
    source := "MOCK_DATA"
    isRealData := false }

/-- An adapter outcome that `getStockData`'s loop treats as a failure:
either the (retried) call threw, or it returned data whose price is not
positive (the `data && data.price > 0` gate fails). -/
def adapterFailed : Except String Quote → Bool
  | Except.error _ => true
  | Except.ok d => decide (d.price ≤ 0)

/-- The source-iteration loop of `UniversalStockScraper.getStockData`, over
the list of (already retried) adapter outcomes, also counting how many
adapters were consulted: the first outcome with a positive price is
normalized and returned at once; an error or a non-positive price advances
to the next adapter; when the list is exhausted the synthetic generator
supplies the result. -/
def getStockDataTrace (results : List (Except String Quote)) (symbol : String)
    (d : MockDraws) : Quote × ℕ :=
  match results with
  | [] => (generateMockData symbol d, 0)
  | r :: rest =>
    match r with
    | Except.ok data =>
      if 0 < data.price then (normalizeData data symbol, 1)
      else
        let t := getStockDataTrace rest symbol d
        (t.1, t.2 + 1)
    | Except.error _ =>
      let t := getStockDataTrace rest symbol d
      (t.1, t.2 + 1)

/-- `UniversalStockScraper.getStockData`, returning just the quote. -/
def getStockData (results : List (Except String Quote)) (symbol : String)
    (d : MockDraws) : Quote :=
  (getStockDataTrace results symbol d).1

/-- Outcome of `UniversalStockScraper.retryRequest`: the final result, how
many times the wrapped source function was invoked, and the list of delays
(in milliseconds) awaited between consecutive attempts. -/
structure RetryResult where
  result : Except String Quote
  attemptsMade : ℕ
  delays : List ℚ
deriving Repr

/-- The `for (attempt = 1; attempt <= retryAttempts; attempt++)` loop of
`retryRequest`.  `source n` is the outcome of the n-th invocation of the
wrapped source function; the second argument is the current attempt number
and the structural argument counts the attempts still allowed.  On the final
allowed attempt (`attempt === this.retryAttempts`) the error is rethrown;
otherwise the loop awaits `delay(1000 * attempt)` and retries. -/
def retryLoop (source : ℕ → Except String Quote) (attempt : ℕ) :
    ℕ → RetryResult
  | 0 => { result := Except.error "no attempts", attemptsMade := 0, delays := [] }
  | 1 =>
    match source attempt with
    | Except.ok d => { result := Except.ok d, attemptsMade := 1, delays := [] }
    | Except.error e => { result := Except.error e, attemptsMade := 1, delays := [] }
  | (n + 2) =>
    match source attempt with
    | Except.ok d => { result := Except.ok d, attemptsMade := 1, delays := [] }
    | Except.error _ =>
      let r := retryLoop source (attempt + 1) (n + 1)
      { result := r.result
        attemptsMade := r.attemptsMade + 1
        delays := ((1000 : ℚ) * attempt) :: r.delays }

/-- `UniversalStockScraper.retryRequest(sourceFunction, symbol)`: run the
retry loop starting at attempt 1 with `retryAttempts` attempts allowed
(the constructor sets `this.retryAttempts = 3`). -/
def retryRequest (source : ℕ → Except String Quote) (retryAttempts : ℕ) :
    RetryResult :=
  retryLoop source 1 retryAttempts

/-- A trade record as handled by `TradeManager` (`src/utils/TradeManager.js`);
the bookkeeping fields `id`, `date`, `notes` and `timestamp` play no role in
the aggregation arithmetic and are omitted. -/
structure Trade where
  symbol : String
  type : String
  quantity : ℚ
  price : ℚ
deriving Repr, DecidableEq

/-- The canonicalization `TradeManager.addTrade` applies when building its
`tradeRecord`: uppercase the symbol and the trade type. -/
def canonTrade (t : Trade) : Trade :=
  { t with symbol := jsToUpper t.symbol, type := jsToUpper t.type }

/-- A per-symbol portfolio entry as created by `TradeManager.updatePortfolio`:
running quantity, weighted-average price, invested capital, and the list of
trades pushed onto the entry. -/
structure Position where
  symbol : String
  totalQuantity : ℚ
  averagePrice : ℚ
  totalInvested : ℚ
  trades : List Trade
deriving Repr, DecidableEq

/-- The fresh portfolio entry `updatePortfolio` creates for an unseen
symbol. -/
def emptyPosition (symbol : String) : Position :=
  { symbol := symbol
    totalQuantity := 0
    averagePrice := 0
    totalInvested := 0
    trades := [] }

/-- The per-trade update step of `TradeManager.updatePortfolio`: the trade is
pushed onto `position.trades` unconditionally; a `"BUY"` adds quantity and
cost and recomputes the average price; a `"SELL"` subtracts quantity and
resets the entry when the remaining quantity is `≤ 0`; any other type leaves
the arithmetic fields untouched. -/
def updatePortfolio (position : Position) (trade : Trade) : Position :=
  let position := { position with trades := position.trades ++ [trade] }
  if trade.type = "BUY" then
    let newTotalQuantity := position.totalQuantity + trade.quantity
    let newTotalInvested := position.totalInvested + trade.quantity * trade.price
    { position with
      totalQuantity := newTotalQuantity
      totalInvested := newTotalInvested
      averagePrice := newTotalInvested / newTotalQuantity }
  else if trade.type = "SELL" then
    let remaining := position.totalQuantity - trade.quantity
    if remaining ≤ 0 then
      { position with totalQuantity := 0, averagePrice := 0, totalInvested := 0 }
    else
      { position with totalQuantity := remaining }
  else
    position

/-- The mutable state of a `TradeManager` instance: the trade ledger
(`this.trades`) and the portfolio map (`this.portfolio`), the latter as an
association list keyed by canonical symbol. -/
structure TradeManagerState where
  trades : List Trade
  portfolio : List (String × Position)
deriving Repr

/-- A freshly constructed `TradeManager`: empty ledger, empty portfolio. -/
def initialState : TradeManagerState :=
  { trades := [], portfolio := [] }

/-- `Map.set`: replace the entry for an existing key, append otherwise. -/
def insertPos : List (String × Position) → String → Position →
    List (String × Position)
  | [], k, v => [(k, v)]
  | (k0, v0) :: rest, k, v =>
    if k0 = k then (k, v) :: rest else (k0, v0) :: insertPos rest k v

/-- Portfolio lookup combined with the implicit creation `updatePortfolio`
performs for an unseen symbol. -/
def lookupPos (portfolio : List (String × Position)) (symbol : String) :
    Position :=
  match portfolio.lookup symbol with
  | some p => p
  | none => emptyPosition symbol

/-- `TradeManager.addTrade(trade)`: build the canonicalized trade record,
push it onto the ledger, and update the portfolio entry for its symbol.
No validation of quantity, price or type is performed. -/
def addTrade (s : TradeManagerState) (trade : Trade) : TradeManagerState :=
  let tradeRecord := canonTrade trade
  { trades := s.trades ++ [tradeRecord]
    portfolio := insertPos s.portfolio tradeRecord.symbol
      (updatePortfolio (lookupPos s.portfolio tradeRecord.symbol) tradeRecord) }

/-- Batch recomputation of one symbol's position: fold `updatePortfolio`
over the event list starting from the fresh entry. -/
def recompute (symbol : String) (events : List Trade) : Position :=
  events.foldl updatePortfolio (emptyPosition symbol)

/-- One row of the `positions` array built by
`TradeManager.calculatePortfolioValue`. -/
structure PositionValuation where
  symbol : String
  quantity : ℚ
  averagePrice : ℚ
  currentPrice : ℚ
  currentValue : ℚ
  totalInvested : ℚ
  pnl : ℚ
  pnlPercent : ℚ
deriving Repr, DecidableEq

/-- The per-position valuation step of `calculatePortfolioValue`:
`currentPrice = currentPrices.get(symbol) || 0` (an absent symbol is valued
at price 0), `currentValue = quantity * currentPrice`,
`pnl = currentValue - totalInvested`, percentage guarded on
`totalInvested > 0`. -/
def valuePosition (currentPrices : List (String × ℚ)) (position : Position) :
    PositionValuation :=
  let currentPrice := jsOr ((currentPrices.lookup position.symbol).getD 0) 0
  let currentValue := position.totalQuantity * currentPrice
  let pnl := currentValue - position.totalInvested
  { symbol := position.symbol
    quantity := position.totalQuantity
    averagePrice := position.averagePrice
    currentPrice := currentPrice
    currentValue := currentValue
    totalInvested := position.totalInvested
    pnl := pnl
    pnlPercent :=
      if 0 < position.totalInvested then pnl / position.totalInvested * 100
      else 0 }

/-- The summary object returned by `calculatePortfolioValue`. -/
structure PortfolioSummary where
  totalValue : ℚ
  totalInvested : ℚ
  totalPnL : ℚ
  totalPnLPercent : ℚ
  positions : List PositionValuation
deriving Repr

/-- `TradeManager.calculatePortfolioValue(currentPrices)`: every portfolio
entry with positive quantity is valued (entries for absent price symbols
included) and the totals accumulate over exactly those rows.  The source
accumulates the three totals with `+=` inside the loop; summing the mapped
rows in the same order yields the same rational values. -/
def calculatePortfolioValue (portfolio : List (String × Position))
    (currentPrices : List (String × ℚ)) : PortfolioSummary :=
  let held := (portfolio.map Prod.snd).filter
    (fun p => decide (0 < p.totalQuantity))
  let vals := held.map (valuePosition currentPrices)
  let totalValue := (vals.map PositionValuation.currentValue).sum
  let totalInvested := (vals.map PositionValuation.totalInvested).sum
  let totalPnL := (vals.map PositionValuation.pnl).sum
  { totalValue := totalValue
    totalInvested := totalInvested
    totalPnL := totalPnL
    totalPnLPercent :=
      if 0 < totalInvested then totalPnL / totalInvested * 100 else 0
    positions := vals }

/-! Concrete sample inputs used by witnesses and counterexamples. -/

/-- A BUY trade record for JIOFIN with the given quantity and price. -/
def buyTrade (qty price : ℚ) : Trade :=
  { symbol := "JIOFIN", type := "BUY", quantity := qty, price := price }

/-- A SELL trade record for JIOFIN with the given quantity and price. -/
def sellTrade (qty price : ℚ) : Trade :=
  { symbol := "JIOFIN", type := "SELL", quantity := qty, price := price }

/-- An NSE `priceInfo` payload whose provider-reported `pChange` (3.33) is the
conventionally rounded percentage while the exact value of
`change / previousClose * 100` is `10/3 = 3.333...`. -/
def nsePriceInfoSample : NSEPriceInfo :=
  { lastPrice := 310
    change := 10
    pChange := 333/100
    totalTradedVolume := 1000
    intraDayHighLow := some (315, 300)
    openQuote := 301
    previousClose := 300 }

/-- All six random draws at one half. -/
def drawsHalf : MockDraws :=
  { rVar := 1/2, rChange := 1/2, rVol := 1/2, rHigh := 1/2, rLow := 1/2, rOpen := 1/2 }

/-- Draws with a zero high/low perturbation but a strongly positive open
perturbation: the generated quote then has `open > high`. -/
def drawsSkewed : MockDraws :=
  { rVar := 1/2, rChange := 1/2, rVol := 1/2, rHigh := 0, rLow := 0, rOpen := 9/10 }

/-- A raw quote with a positive price, as a successful adapter would
deliver it. -/
def sampleOkQuote : Quote :=
  { symbol := "JIOFIN", price := 100, change := 2, changePercent := 2
    volume := 5000, high := 101, low := 98, openPrice := 99, prevClose := 98
    currency := "INR", source := "yahoo_finance", isRealData := true }

/-- A raw quote whose price is zero: HTTP success but a malformed price,
which the pipeline must treat as failure. -/
def zeroPriceQuote : Quote :=
  { sampleOkQuote with price := 0, source := "nse_india" }

/-- A held position: 100 shares at average price 250, invested 25000. -/
def samplePosition : Position :=
  { symbol := "JIOFIN", totalQuantity := 100, averagePrice := 250
    totalInvested := 25000, trades := [] }

/-! Helper lemmas shared by the claim theorems. -/

/-- Looking up a key immediately after `insertPos` set it returns the new
value. -/
theorem lookup_insertPos_self (m : List (String × Position)) (k : String)
    (v : Position) : (insertPos m k v).lookup k = some v := by
  induction m with
  | nil => simp [insertPos]
  | cons hd tl ih =>
    obtain ⟨k0, v0⟩ := hd
    by_cases hk : k0 = k
    · subst hk
      simp [insertPos]
    · have hne : (k == k0) = false := beq_eq_false_iff_ne.mpr (Ne.symm hk)
      simp [insertPos, hk, List.lookup, hne, ih]

/-- Every entry of the static base-price table, and the default, is
positive. -/
theorem basePrices_pos (s : String) : 0 < basePrices s := by
  unfold basePrices
  repeat' split
  all_goals norm_num

/-- After a run of `addTrade` calls whose trades all canonicalize to symbol
`S`, the stored portfolio entry for `S` is the `updatePortfolio` fold of the
canonicalized trades over the previously stored entry. -/
theorem foldl_addTrade_lookup (events : List Trade) (S : String)
    (hS : ∀ t ∈ events, jsToUpper t.symbol = S) (s : TradeManagerState) :
    lookupPos (events.foldl addTrade s).portfolio S =
      (events.map canonTrade).foldl updatePortfolio (lookupPos s.portfolio S) := by
  induction events generalizing s with
  | nil => simp
  | cons t rest ih =>
    have ht : jsToUpper t.symbol = S := hS t (by simp)
    have hrest : ∀ x ∈ rest, jsToUpper x.symbol = S := fun x hx => hS x (by simp [hx])
    simp only [List.foldl_cons, List.map_cons]
    rw [ih hrest (addTrade s t)]
    have hstep : lookupPos (addTrade s t).portfolio S =
        updatePortfolio (lookupPos s.portfolio S) (canonTrade t) := by
      simp [addTrade, lookupPos, canonTrade, ht, lookup_insertPos_self]
    rw [hstep]

/-- C3: the position-aggregation fold starts from quantity 0 and invested
capital 0; on BUY(qty, price) it adds qty to the quantity, qty * price to the
invested capital, and sets the average price to invested / quantity; on
SELL(qty) it subtracts qty and resets quantity, invested capital and average
price to 0 exactly when the remaining quantity is ≤ 0.  Folding
[BUY 100@250, BUY 50@245] yields quantity 150, average price 37250/150 and
invested 37250; folding [BUY 100@250, SELL 100@280] yields the all-zero
position. -/
theorem updatePortfolio_fold_cost_basis :
    ((emptyPosition "JIOFIN").totalQuantity = 0 ∧
      (emptyPosition "JIOFIN").totalInvested = 0) ∧
    (∀ (p : Position) (qty price : ℚ),
      updatePortfolio p (buyTrade qty price) =
        { p with
          trades := p.trades ++ [buyTrade qty price]
          totalQuantity := p.totalQuantity + qty
          totalInvested := p.totalInvested + qty * price
          averagePrice :=
            (p.totalInvested + qty * price) / (p.totalQuantity + qty) }) ∧
    (∀ (p : Position) (qty price : ℚ),
      updatePortfolio p (sellTrade qty price) =
        if p.totalQuantity - qty ≤ 0 then
          { p with
            trades := p.trades ++ [sellTrade qty price]
            totalQuantity := 0
            averagePrice := 0
            totalInvested := 0 }
        else
          { p with
            trades := p.trades ++ [sellTrade qty price]
            totalQuantity := p.totalQuantity - qty }) ∧
    ((recompute "JIOFIN" [buyTrade 100 250, buyTrade 50 245]).totalQuantity = 150 ∧
      (recompute "JIOFIN" [buyTrade 100 250, buyTrade 50 245]).averagePrice =
        37250 / 150 ∧
      (recompute "JIOFIN" [buyTrade 100 250, buyTrade 50 245]).totalInvested =
        37250) ∧
    ((recompute "JIOFIN" [buyTrade 100 250, sellTrade 100 280]).totalQuantity = 0 ∧
      (recompute "JIOFIN" [buyTrade 100 250, sellTrade 100 280]).averagePrice = 0 ∧
      (recompute "JIOFIN" [buyTrade 100 250, sellTrade 100 280]).totalInvested = 0) := by
  refine ⟨⟨rfl, rfl⟩, ?_, ?_, ?_, ?_⟩
  · intro p qty price
    simp [updatePortfolio, buyTrade]
  · intro p qty price
    simp [updatePortfolio, sellTrade]
  · norm_num [recompute, updatePortfolio, buyTrade, emptyPosition]
  · have hSB : ("SELL" : String) ≠ "BUY" := by decide
    norm_num [recompute, updatePortfolio, buyTrade, sellTrade, emptyPosition, hSB]

/-- C4: for every single-symbol trade sequence and every prefix length `k`,
the batch fold (`recompute`) over the canonicalized prefix agrees with the
portfolio entry obtained by applying `addTrade` (hence `updatePortfolio`)
one event at a time up to `k`. -/
theorem batch_equals_incremental (events : List Trade) (k : ℕ) (S : String)
    (hS : ∀ t ∈ events, jsToUpper t.symbol = S) :
    lookupPos ((events.take k).foldl addTrade initialState).portfolio S =
      recompute S ((events.take k).map canonTrade) := by
  have hTake : ∀ t ∈ events.take k, jsToUpper t.symbol = S :=
    fun t ht => hS t (List.take_subset k events ht)
  have h := foldl_addTrade_lookup (events.take k) S hTake initialState
  simpa [recompute, lookupPos, initialState] using h

/-- Witness for C4 at the sequence [BUY 100@250, SELL 40@260] with prefix
length 1. -/
theorem batch_equals_incremental_witness :
    lookupPos ((([buyTrade 100 250, sellTrade 40 260]).take 1).foldl
        addTrade initialState).portfolio "JIOFIN" =
      recompute "JIOFIN"
        ((([buyTrade 100 250, sellTrade 40 260]).take 1).map canonTrade) :=
  batch_equals_incremental [buyTrade 100 250, sellTrade 40 260] 1 "JIOFIN"
    (by decide)

/-- C5 (code bug): `addTrade` performs no input validation.  Appending a
trade with quantity 0 and price -5 does not fail: it grows the ledger by one
record and modifies the portfolio entry for the symbol, where the
specification (and the `CHECK (quantity > 0)` / `CHECK (price > 0)`
constraints declared in `server-working.js`) require rejection with the
ledger left unchanged. -/
theorem addTrade_accepts_invalid_trade :
    (addTrade initialState
        { symbol := "JIOFIN", type := "BUY", quantity := 0, price := -5 }).trades.length
      = initialState.trades.length + 1 ∧
    (lookupPos (addTrade initialState
        { symbol := "JIOFIN", type := "BUY", quantity := 0, price := -5 }).portfolio
        "JIOFIN").trades.length = 1 ∧
    (lookupPos initialState.portfolio "JIOFIN").trades.length = 0 := by
  have hup : jsToUpper "JIOFIN" = "JIOFIN" := rfl
  have hbuy : jsToUpper "BUY" = "BUY" := rfl
  refine ⟨by simp [addTrade, initialState], ?_, by simp [lookupPos, initialState, emptyPosition]⟩
  simp [addTrade, initialState, canonTrade, lookupPos, hup, hbuy,
    lookup_insertPos_self, updatePortfolio, emptyPosition]

/-- Counterexample to C8: after [BUY 100@250, SELL 50@280] the stored
position has totalInvested 25000 but totalQuantity * averagePrice =
50 * 250 = 12500, so the claimed equation fails right after a partial
SELL. -/
theorem partial_sell_breaks_invested_equation :
    (recompute "JIOFIN" [buyTrade 100 250, sellTrade 50 280]).totalInvested ≠
      (recompute "JIOFIN" [buyTrade 100 250, sellTrade 50 280]).totalQuantity *
        (recompute "JIOFIN" [buyTrade 100 250, sellTrade 50 280]).averagePrice := by
  have hSB : ("SELL" : String) ≠ "BUY" := by decide
  norm_num [recompute, updatePortfolio, buyTrade, sellTrade, emptyPosition, hSB]

/-- C8 (amended): the equation totalInvested = totalQuantity * averagePrice
is preserved by every BUY (given nonnegative trade quantity and prior
quantity) and holds after every SELL that closes the position (remaining
quantity ≤ 0, all fields reset); but a SELL that leaves a positive remaining
quantity keeps totalInvested and averagePrice unchanged while reducing
totalQuantity, so the equation fails in that case. -/
theorem invariant_buy_and_closing_sell (p : Position) (qty price : ℚ)
    (hinv : p.totalInvested = p.totalQuantity * p.averagePrice) :
    (0 ≤ qty → 0 ≤ p.totalQuantity →
      (updatePortfolio p (buyTrade qty price)).totalInvested =
        (updatePortfolio p (buyTrade qty price)).totalQuantity *
          (updatePortfolio p (buyTrade qty price)).averagePrice) ∧
    (p.totalQuantity - qty ≤ 0 →
      (updatePortfolio p (sellTrade qty price)).totalInvested =
        (updatePortfolio p (sellTrade qty price)).totalQuantity *
          (updatePortfolio p (sellTrade qty price)).averagePrice) ∧
    (0 < p.totalQuantity - qty →
      (updatePortfolio p (sellTrade qty price)).totalInvested = p.totalInvested ∧
      (updatePortfolio p (sellTrade qty price)).averagePrice = p.averagePrice ∧
      (updatePortfolio p (sellTrade qty price)).totalQuantity =
        p.totalQuantity - qty) := by
  refine ⟨?_, ?_, ?_⟩
  · intro hq hQ
    have e1 : (updatePortfolio p (buyTrade qty price)).totalInvested =
        p.totalInvested + qty * price := by simp [updatePortfolio, buyTrade]
    have e2 : (updatePortfolio p (buyTrade qty price)).totalQuantity =
        p.totalQuantity + qty := by simp [updatePortfolio, buyTrade]
    have e3 : (updatePortfolio p (buyTrade qty price)).averagePrice =
        (p.totalInvested + qty * price) / (p.totalQuantity + qty) := by
      simp [updatePortfolio, buyTrade]
    rw [e1, e2, e3]
    by_cases h0 : p.totalQuantity + qty = 0
    · have hQ0 : p.totalQuantity = 0 := by linarith
      have hq0 : qty = 0 := by linarith
      simp [hQ0, hq0, hinv]
    · field_simp
  · intro h
    simp [updatePortfolio, sellTrade, h]
  · intro h
    have h2 : ¬(p.totalQuantity - qty ≤ 0) := not_le.mpr h
    simp [updatePortfolio, sellTrade, h2]

/-- Witness for C8 (amended) at a position of 100 shares with average price
250 and invested 25000, trading quantity 5 at price 7. -/
theorem invariant_buy_and_closing_sell_witness :
    ((0:ℚ) ≤ 5 → 0 ≤ samplePosition.totalQuantity →
      (updatePortfolio samplePosition (buyTrade 5 7)).totalInvested =
        (updatePortfolio samplePosition (buyTrade 5 7)).totalQuantity *
          (updatePortfolio samplePosition (buyTrade 5 7)).averagePrice) ∧
    (samplePosition.totalQuantity - 5 ≤ 0 →
      (updatePortfolio samplePosition (sellTrade 5 7)).totalInvested =
        (updatePortfolio samplePosition (sellTrade 5 7)).totalQuantity *
          (updatePortfolio samplePosition (sellTrade 5 7)).averagePrice) ∧
    (0 < samplePosition.totalQuantity - 5 →
      (updatePortfolio samplePosition (sellTrade 5 7)).totalInvested =
        samplePosition.totalInvested ∧
      (updatePortfolio samplePosition (sellTrade 5 7)).averagePrice =
        samplePosition.averagePrice ∧
      (updatePortfolio samplePosition (sellTrade 5 7)).totalQuantity =
        samplePosition.totalQuantity - 5) :=
  invariant_buy_and_closing_sell samplePosition 5 7 (by norm_num [samplePosition])

/-- C1 (amended): the acquisition pipeline is total — it always returns a
Quote — and when every configured adapter fails (throws, or yields a
non-positive price) on its retried call, the returned quote has
isRealData = false and source identifier "MOCK_DATA" (the synthetic
generator's identifier in the code is "MOCK_DATA", not "SYNTHETIC"). -/
theorem all_sources_failed_returns_mock (results : List (Except String Quote))
    (symbol : String) (d : MockDraws)
    (h : ∀ r ∈ results, adapterFailed r = true) :
    (getStockData results symbol d).isRealData = false ∧
    (getStockData results symbol d).source = "MOCK_DATA" := by
  induction results with
  | nil => exact ⟨rfl, rfl⟩
  | cons r rest ih =>
    have hrest : ∀ x ∈ rest, adapterFailed x = true :=
      fun x hx => h x (by simp [hx])
    cases r with
    | error s =>
      simpa [getStockData, getStockDataTrace] using ih hrest
    | ok q =>
      have hq : q.price ≤ 0 := by
        have hr : adapterFailed (Except.ok q) = true := h _ (by simp)
        simpa [adapterFailed] using hr
      have hq2 : ¬(0 < q.price) := not_lt.mpr hq
      simpa [getStockData, getStockDataTrace, hq2] using ih hrest

/-- Witness for C1 (amended): one throwing adapter followed by one returning
a zero price; the pipeline falls through to mock data. -/
theorem all_sources_failed_returns_mock_witness :
    (getStockData [Except.error "yahoo down", Except.ok zeroPriceQuote]
        "RELIANCE" drawsHalf).isRealData = false ∧
    (getStockData [Except.error "yahoo down", Except.ok zeroPriceQuote]
        "RELIANCE" drawsHalf).source = "MOCK_DATA" :=
  all_sources_failed_returns_mock
    [Except.error "yahoo down", Except.ok zeroPriceQuote] "RELIANCE" drawsHalf
    (by intro r hr; fin_cases hr <;>
      norm_num [adapterFailed, zeroPriceQuote, sampleOkQuote])

/-- Counterexample to C1 as stated: with all five configured adapters
failing, the returned quote's source identifier is "MOCK_DATA" — it is not
the claimed "SYNTHETIC". -/
theorem mock_source_is_not_synthetic :
    (getStockData [Except.error "yahoo failed", Except.error "moneycontrol skipped",
        Except.error "nse failed", Except.error "tradingview skipped",
        Except.error "alphavantage failed"] "JIOFIN" drawsHalf).source
      = "MOCK_DATA" ∧ "MOCK_DATA" ≠ "SYNTHETIC" :=
  ⟨rfl, by decide⟩

/-- Counterexample to C2: an NSE payload whose provider-rounded `pChange`
(3.33) is passed through the normalizer verbatim (only rounded again), while
the recomputed value `change / previousClose * 100 = 10/3` differs — the
normalizer does not recompute changePercent, so the invariant fails on a
provider-built quote with nonzero previousClose. -/
theorem normalized_quote_violates_percent_invariant :
    (normalizeData (parseNSEResponse "TCS" nsePriceInfoSample) "TCS").prevClose ≠ 0 ∧
    (normalizeData (parseNSEResponse "TCS" nsePriceInfoSample) "TCS").changePercent ≠
      (normalizeData (parseNSEResponse "TCS" nsePriceInfoSample) "TCS").change /
        (normalizeData (parseNSEResponse "TCS" nsePriceInfoSample) "TCS").prevClose
          * 100 := by
  norm_num [normalizeData, parseNSEResponse, nsePriceInfoSample, jsToFixed2,
    jsParseIntOr0, round]

/-- C2 (amended): the normalizer does not recompute changePercent from
change and previousClose — it returns the provider-reported value rounded
to two decimals, with previousClose passing through untouched; and the
synthetic generator derives changePercent from the perturbed price (not
from previousClose): changePercent * price = change * 100 and
previousClose = price - change.  The claimed invariant therefore holds only
when the provider's reported value already agrees with the recomputation. -/
theorem normalizer_rounds_reported_changePercent :
    (∀ (data : Quote) (s : String),
      (normalizeData data s).changePercent = jsToFixed2 data.changePercent ∧
      (normalizeData data s).change = jsToFixed2 data.change ∧
      (normalizeData data s).prevClose = data.prevClose) ∧
    (∀ (s : String) (d : MockDraws), 0 ≤ d.rVar → d.rVar < 1 →
      0 < (generateMockData s d).price ∧
      (generateMockData s d).changePercent * (generateMockData s d).price =
        (generateMockData s d).change * 100 ∧
      (generateMockData s d).prevClose =
        (generateMockData s d).price - (generateMockData s d).change) := by
  constructor
  · intro data s
    exact ⟨rfl, rfl, rfl⟩
  · intro s d h0 h1
    have hb : 0 < basePrices (jsToUpper s) := basePrices_pos _
    have hf : 0 < 1 + (d.rVar - 1/2) * (1/10) := by nlinarith
    have hp : 0 < (generateMockData s d).price := by
      simp only [generateMockData]
      exact mul_pos hb hf
    refine ⟨hp, ?_, rfl⟩
    have hkey : ∀ (c q : ℚ), q ≠ 0 → c / q * 100 * q = c * 100 := by
      intro c q hq0
      rw [mul_right_comm, div_mul_cancel₀ _ hq0]
    have hne : (generateMockData s d).price ≠ 0 := ne_of_gt hp
    simp only [generateMockData] at hne ⊢
    exact hkey _ _ hne

/-- Witness for C2 (amended) at a concrete raw quote, symbol and draw. -/
theorem normalizer_rounds_reported_changePercent_witness :
    ((normalizeData sampleOkQuote "TCS").changePercent =
        jsToFixed2 sampleOkQuote.changePercent ∧
      (normalizeData sampleOkQuote "TCS").change = jsToFixed2 sampleOkQuote.change ∧
      (normalizeData sampleOkQuote "TCS").prevClose = sampleOkQuote.prevClose) ∧
    (0 < (generateMockData "ITC" drawsHalf).price ∧
      (generateMockData "ITC" drawsHalf).changePercent *
          (generateMockData "ITC" drawsHalf).price =
        (generateMockData "ITC" drawsHalf).change * 100 ∧
      (generateMockData "ITC" drawsHalf).prevClose =
        (generateMockData "ITC" drawsHalf).price -
          (generateMockData "ITC" drawsHalf).change) :=
  ⟨normalizer_rounds_reported_changePercent.1 sampleOkQuote "TCS",
    normalizer_rounds_reported_changePercent.2 "ITC" drawsHalf
      (by norm_num [drawsHalf]) (by norm_num [drawsHalf])⟩

/-- C6: an always-failing adapter wrapped by `retryRequest` with the default
`retryAttempts = 3` is invoked exactly 3 times, the final outcome is the
underlying adapter error of the last attempt (so the pipeline advances to
the next adapter only after 3 attempts), and the delays awaited between
consecutive attempts are 1000 * 1 and 1000 * 2 milliseconds (linear backoff
with base 1000). -/
theorem retry_exhausts_attempts (source : ℕ → Except String Quote)
    (e : ℕ → String) (h : ∀ n, source n = Except.error (e n)) :
    retryRequest source 3 =
      { result := Except.error (e 3), attemptsMade := 3, delays := [1000, 2000] } := by
  simp [retryRequest, retryLoop, h 1, h 2, h 3]
  norm_num

/-- Witness for C6 with the constantly failing adapter. -/
theorem retry_exhausts_attempts_witness :
    retryRequest (fun _ => Except.error "network timeout") 3 =
      { result := Except.error "network timeout", attemptsMade := 3,
        delays := [1000, 2000] } :=
  retry_exhausts_attempts (fun _ => Except.error "network timeout")
    (fun _ => "network timeout") (fun _ => rfl)

/-- C7: first-success-wins — if every adapter before position i fails
(throws or yields a non-positive price) and adapter i yields a quote with a
positive price, the pipeline returns that quote normalized and consults
exactly i + 1 adapters, so the adapters after position i are never
invoked; a non-positive price advances the iteration rather than being
returned. -/
theorem first_success_wins (pre post : List (Except String Quote)) (d0 : Quote)
    (symbol : String) (dr : MockDraws)
    (hpre : ∀ r ∈ pre, adapterFailed r = true) (hd : 0 < d0.price) :
    getStockDataTrace (pre ++ Except.ok d0 :: post) symbol dr =
      (normalizeData d0 symbol, pre.length + 1) := by
  induction pre with
  | nil => simp [getStockDataTrace, hd]
  | cons r rest ih =>
    have hrest : ∀ x ∈ rest, adapterFailed x = true :=
      fun x hx => hpre x (by simp [hx])
    cases r with
    | error s =>
      simp [getStockDataTrace, ih hrest]
    | ok q =>
      have hq : q.price ≤ 0 := by
        have hr : adapterFailed (Except.ok q) = true := hpre _ (by simp)
        simpa [adapterFailed] using hr
      have hq2 : ¬(0 < q.price) := not_lt.mpr hq
      simp [getStockDataTrace, hq2, ih hrest]

/-- Witness for C7: a throwing adapter and a zero-price adapter precede the
successful one; a further adapter sits after it and is never consulted
(exactly 3 of the 4 adapters are consulted). -/
theorem first_success_wins_witness :
    getStockDataTrace [Except.error "yahoo down", Except.ok zeroPriceQuote,
        Except.ok sampleOkQuote, Except.error "never reached"] "JIOFIN" drawsHalf =
      (normalizeData sampleOkQuote "JIOFIN", 3) :=
  first_success_wins [Except.error "yahoo down", Except.ok zeroPriceQuote]
    [Except.error "never reached"] sampleOkQuote "JIOFIN" drawsHalf
    (by intro r hr; fin_cases hr <;>
      norm_num [adapterFailed, zeroPriceQuote, sampleOkQuote])
    (by norm_num [sampleOkQuote])

/-- Counterexample to C9: at the draw with zero high/low perturbation and a
strongly positive open perturbation, the synthetic quote for TCS has
open = 3528 while high = price = 3500, so high ≥ max(open, price) (and with
it the claimed conjunction) fails. -/
theorem mock_high_can_fall_below_open :
    ¬((generateMockData "TCS" drawsSkewed).high ≥
        max (generateMockData "TCS" drawsSkewed).openPrice
          (generateMockData "TCS" drawsSkewed).price ∧
      (generateMockData "TCS" drawsSkewed).low ≤
        min (generateMockData "TCS" drawsSkewed).openPrice
          (generateMockData "TCS" drawsSkewed).price) := by
  have hup : jsToUpper "TCS" = "TCS" := rfl
  have hbp : basePrices "TCS" = 3500 := rfl
  intro hcon
  have h1 := hcon.1
  rw [ge_iff_le, max_le_iff] at h1
  have h2 := h1.1
  norm_num [generateMockData, drawsSkewed, hup, hbp] at h2

/-- C9 (amended): for every symbol and draws in the generator's stated
ranges the synthetic quote satisfies 0 < price ≤ high and low ≤ price;
the stronger claimed bounds high ≥ max(open, price) and
low ≤ min(open, price) do not hold in general because the open perturbation
is drawn independently of the high/low perturbations. -/
theorem mock_high_low_bracket_price (s : String) (d : MockDraws)
    (h0 : 0 ≤ d.rVar) (_hv : d.rVar < 1) (hh : 0 ≤ d.rHigh) (hl : 0 ≤ d.rLow) :
    0 < (generateMockData s d).price ∧
    (generateMockData s d).price ≤ (generateMockData s d).high ∧
    (generateMockData s d).low ≤ (generateMockData s d).price := by
  have hb : 0 < basePrices (jsToUpper s) := basePrices_pos _
  have hf : 0 < 1 + (d.rVar - 1/2) * (1/10) := by nlinarith
  have hp : 0 < (generateMockData s d).price := by
    simp only [generateMockData]
    exact mul_pos hb hf
  refine ⟨hp, ?_, ?_⟩
  · simp only [generateMockData] at hp ⊢
    nlinarith
  · simp only [generateMockData] at hp ⊢
    nlinarith

/-- Witness for C9 (amended) at symbol INFY and all draws equal to 1/2. -/
theorem mock_high_low_bracket_price_witness :
    0 < (generateMockData "INFY" drawsHalf).price ∧
    (generateMockData "INFY" drawsHalf).price ≤
      (generateMockData "INFY" drawsHalf).high ∧
    (generateMockData "INFY" drawsHalf).low ≤
      (generateMockData "INFY" drawsHalf).price :=
  mock_high_low_bracket_price "INFY" drawsHalf (by norm_num [drawsHalf])
    (by norm_num [drawsHalf]) (by norm_num [drawsHalf]) (by norm_num [drawsHalf])

/-- C10: a held position (positive quantity) whose symbol is absent from the
current-price map is not skipped by `calculatePortfolioValue` and raises no
failure: its row is present in the output with currentPrice 0,
currentValue 0 and pnl equal to minus its invested capital, and the summary
totals are exactly the sums over the output rows — that row included. -/
theorem absent_price_valued_at_zero (portfolio : List (String × Position))
    (currentPrices : List (String × ℚ)) (S : String) (p : Position)
    (hmem : (S, p) ∈ portfolio) (hq : 0 < p.totalQuantity)
    (habs : currentPrices.lookup p.symbol = none) :
    valuePosition currentPrices p ∈
      (calculatePortfolioValue portfolio currentPrices).positions ∧
    (valuePosition currentPrices p).currentPrice = 0 ∧
    (valuePosition currentPrices p).currentValue = 0 ∧
    (valuePosition currentPrices p).pnl = -p.totalInvested ∧
    (calculatePortfolioValue portfolio currentPrices).totalValue =
      ((calculatePortfolioValue portfolio currentPrices).positions.map
        PositionValuation.currentValue).sum ∧
    (calculatePortfolioValue portfolio currentPrices).totalPnL =
      ((calculatePortfolioValue portfolio currentPrices).positions.map
        PositionValuation.pnl).sum := by
  refine ⟨?_, ?_, ?_, ?_, rfl, rfl⟩
  · simp only [calculatePortfolioValue]
    apply List.mem_map_of_mem
    rw [List.mem_filter]
    exact ⟨List.mem_map_of_mem Prod.snd hmem, by simpa using hq⟩
  · simp [valuePosition, habs, jsOr]
  · simp [valuePosition, habs, jsOr]
  · simp [valuePosition, habs, jsOr]

/-- Witness for C10: a single held position valued against an empty price
map. -/
theorem absent_price_valued_at_zero_witness :
    valuePosition [] samplePosition ∈
      (calculatePortfolioValue [("JIOFIN", samplePosition)] []).positions ∧
    (valuePosition [] samplePosition).currentPrice = 0 ∧
    (valuePosition [] samplePosition).currentValue = 0 ∧
    (valuePosition [] samplePosition).pnl = -samplePosition.totalInvested ∧
    (calculatePortfolioValue [("JIOFIN", samplePosition)] []).totalValue =
      ((calculatePortfolioValue [("JIOFIN", samplePosition)] []).positions.map
        PositionValuation.currentValue).sum ∧
    (calculatePortfolioValue [("JIOFIN", samplePosition)] []).totalPnL =
      ((calculatePortfolioValue [("JIOFIN", samplePosition)] []).positions.map
        PositionValuation.pnl).sum :=
  absent_price_valued_at_zero [("JIOFIN", samplePosition)] [] "JIOFIN"
    samplePosition (by simp) (by norm_num [samplePosition]) rfl

end TradeBook
